import Mathlib

/-!
Verification of `scripts/validate_jsonl.py`.

Shallow embedding of the JSONL validator script.  After importing the
`json`, `sys` and `pathlib` modules, the script is:

```
  path = pathlib.Path(sys.argv[1])
  ok = True
  with path.open("r", encoding="utf-8") as f:
      for i, line in enumerate(f, start=1):
          line = line.strip()
          if not line:
              continue
          try:
              json.loads(line)
          except Exception as e:
              print(f"[ERROR] {path}:{i} invalid JSON: {e}")
              ok = False
  if not ok:
      sys.exit(1)
  print(f"[OK] {path} looks like valid JSONL")
```

The embedding models:
* `str.strip` (`pyStrip`), with CPython's notion of whitespace;
* `json.loads` (`json_loads`), as a recognizer over `List Char` following the
  CPython `json` module's scanner (py_scanner semantics: any top-level JSON
  value, plus the `NaN`/`Infinity`/`-Infinity` extensions accepted by default),
  returning `Except` with the decoder's error message on failure.  Error
  positions are reported as `line 1 column (k+1) (char k)`: a line obtained
  from file iteration contains no interior newline, so the decoder's
  line/column arithmetic degenerates to exactly this form.  Messages and
  positions follow the C scanner (`_json`), the default implementation:
  `\uXXXX` escapes require four strict hex digits, and the `Invalid \escape`
  and `Invalid control character at` messages carry no character repr.
  Surrogate-pair recombination in strings is not modelled; it does not change
  which strings are accepted.  The scanner's recursion budget
  (`Py_EnterRecursiveCall`, drawn from `sys.getrecursionlimit()`) is modelled
  explicitly: entering a container beyond the budget fails with the
  `RecursionError` message, which the script's `except Exception` turns into
  a regular `[ERROR]` line — so even structurally valid JSON is rejected past
  the limit.
* the per-line loop as explicit state passing (`procLine`, `runLines`) over the
  state `(ok, lines printed so far)`;
* the whole run (`validate_jsonl`): printed lines and exit code;
* the uncaught-failure boundary (`main_run`, `runReads`): opening the file is
  modelled by an `Option` (a `none` means `path.open` raised), and each line
  read is either a decoded line or a `UnicodeDecodeError` (`ReadLine`);
  neither is inside the `try`, so both crash the program (`Outcome.crashed`).
-/

/-- Characters removed by CPython's `str.strip()` (Unicode whitespace). -/
def pyWsChar (c : Char) : Bool :=
  c = ' ' || c = '\t' || c = '\n' || c = '\r' || c = '\x0b' || c = '\x0c' ||
  c = '\x1c' || c = '\x1d' || c = '\x1e' || c = '\x1f' || c = '\x85' ||
  c = '\xa0' || c = '\u1680' ||
  (0x2000 ≤ c.toNat && c.toNat ≤ 0x200a) ||
  c = '\u2028' || c = '\u2029' || c = '\u202f' || c = '\u205f' || c = '\u3000'

/-- Model of Python `str.strip()`: drop leading and trailing whitespace. -/
def pyStrip (s : String) : String :=
  ⟨((s.data.dropWhile pyWsChar).reverse.dropWhile pyWsChar).reverse⟩

/-- JSON whitespace as in the `json` module's `WHITESPACE` regex `[ \t\n\r]*`. -/
def jsonWsChar (c : Char) : Bool :=
  c = ' ' || c = '\t' || c = '\n' || c = '\r'

/-- Skip JSON whitespace, tracking the character position. -/
def skipWs : Nat → List Char → Nat × List Char
  | k, c :: cs => if jsonWsChar c then skipWs (k + 1) cs else (k, c :: cs)
  | k, [] => (k, [])

/-- Rendering of `JSONDecodeError.__str__` for a single-line document:
`<msg>: line 1 column <k+1> (char <k>)`. -/
def posMsg (msg : String) (k : Nat) : String :=
  msg ++ ": line 1 column " ++ Nat.repr (k + 1) ++ " (char " ++ Nat.repr k ++ ")"

/-- Consume a maximal run of decimal digits, returning how many. -/
def takeDigits : List Char → Nat × List Char
  | [] => (0, [])
  | c :: cs =>
    if c.isDigit then
      let r := takeDigits cs
      (r.1 + 1, r.2)
    else (0, c :: cs)

/-- Optional fraction `(\.\d+)?` and exponent `([eE][-+]?\d+)?` of `NUMBER_RE`,
starting at position `k`; returns the end position and the remaining input. -/
def fracExpEnd (k : Nat) (cs : List Char) : Nat × List Char :=
  let fr :=
    match cs with
    | '.' :: r =>
      let d := takeDigits r
      if d.1 = 0 then (k, cs) else (k + 1 + d.1, d.2)
    | _ => (k, cs)
  match fr.2 with
  | e :: r =>
    if e = 'e' || e = 'E' then
      let se :=
        match r with
        | s :: r2 => if s = '+' || s = '-' then (1, r2) else (0, s :: r2)
        | [] => (0, ([] : List Char))
      let d := takeDigits se.2
      if d.1 = 0 then (fr.1, fr.2) else (fr.1 + 1 + se.1 + d.1, d.2)
    else (fr.1, fr.2)
  | [] => (fr.1, fr.2)

/-- Match `NUMBER_RE = (-?(?:0|[1-9]\d*))(\.\d+)?([eE][-+]?\d+)?` at position
`k`; `none` when the regex does not match at all. -/
def matchNumber (k : Nat) (cs : List Char) : Option (Nat × List Char) :=
  let start :=
    match cs with
    | '-' :: r => (k + 1, r)
    | _ => (k, cs)
  match start.2 with
  | '0' :: r => some (fracExpEnd (start.1 + 1) r)
  | c :: r =>
    if c.isDigit then
      let d := takeDigits r
      some (fracExpEnd (start.1 + 1 + d.1) d.2)
    else none
  | [] => none

/-- Hexadecimal digit test for `\uXXXX` escapes. -/
def isHexDig (c : Char) : Bool :=
  c.isDigit || (97 ≤ c.toNat && c.toNat ≤ 102) || (65 ≤ c.toNat && c.toNat ≤ 70)

/-- Model of `py_scanstring`: scan a JSON string body.  `b` is the position of the
opening quote (used by the `Unterminated string` message), `k` the current
position, `cs` the input after the opening quote.  Returns the position just
after the closing quote and the remaining input. -/
def scanString (b : Nat) (k : Nat) (cs : List Char) :
    Except String (Nat × List Char) :=
  match cs with
  | [] => .error (posMsg "Unterminated string starting at" b)
  | c :: rest =>
    if c = '"' then .ok (k + 1, rest)
    else if c = '\\' then
      match rest with
      | [] => .error (posMsg "Unterminated string starting at" b)
      | e :: rest2 =>
        if e = 'u' then
          match rest2 with
          | h1 :: h2 :: h3 :: h4 :: rest3 =>
            if isHexDig h1 && isHexDig h2 && isHexDig h3 && isHexDig h4 then
              scanString b (k + 6) rest3
            else .error (posMsg "Invalid \\uXXXX escape" (k + 1))
          | _ => .error (posMsg "Invalid \\uXXXX escape" (k + 1))
        else if e = '"' || e = '\\' || e = '/' || e = 'b' || e = 'f' ||
            e = 'n' || e = 'r' || e = 't' then
          scanString b (k + 2) rest2
        else .error (posMsg "Invalid \\escape" k)
    else if c.toNat < 32 then
      .error (posMsg "Invalid control character at" k)
    else scanString b (k + 1) rest

/-- What the scanner is currently reading: a value (`_scan_once`), an object
just after its `{` (`JSONObject`), the member loop of an object just after an
opening key quote, an array just after its `[` (`JSONArray`), or the element
loop of an array. -/
inductive ScanMode where
  | value : ScanMode
  | objStart : ScanMode
  | members : ScanMode
  | arrStart : ScanMode
  | elems : ScanMode
deriving Repr, DecidableEq

/-- The message of the `RecursionError` raised by `Py_EnterRecursiveCall`
when the scanner enters a container (`kind` is `"object"` or `"array"`)
beyond the interpreter's recursion budget.  The script's `except Exception`
catches it, so this text reaches the `[ERROR]` line like any decoder
message. -/
def recursionErrMsg (kind : String) : String :=
  "maximum recursion depth exceeded while decoding a JSON " ++ kind ++
    " from a unicode string"

/-- The recursive core of the scanner, defunctionalized into one function so
that recursion is structural on `steps` (and hence kernel-evaluable).

* `.value` is `_scan_once`: dispatch on the first character, in the scanner's
  order (string, object, array, `null`/`true`/`false`, `NUMBER_RE`, then the
  `NaN`/`Infinity`/`-Infinity` extensions).
* `.objStart` is `JSONObject` just after the `{` at position `k - 1`;
  `.members` is its member loop, `k` being the position just after the
  opening quote of the current key.
* `.arrStart` is `JSONArray` just after the `[` at position `k - 1`;
  `.elems` is its element loop.

`depth` models the recursion budget drawn on by `Py_EnterRecursiveCall`:
entering an object or array consumes one unit — and fails with the
`RecursionError` message when the budget is gone — and the unit is given
back on leaving the container (nested calls simply receive `depth - 1`).

`steps` only forces termination and is never the binding constraint: every
recursive call below is one of
 - `.value` → `.objStart`/`.arrStart`, after consuming the `{` or `[`;
 - `.objStart`/`.members` → `.members`, after consuming a key's opening `"`;
 - `.members`/`.elems` → `.value`, at most once per `.members`/`.elems` call;
 - `.arrStart` → `.elems`, once per `[`; `.elems` → `.elems`, after a `,`;
so a run from the root makes at most one `.objStart` call per `{`, one
`.arrStart` and one `.elems` call per `[`, one `.members` call per `"`, one
`.elems` call per `,`, and at most one `.value` call beyond their number —
in total no more than `3 * length + 1` calls, below what `json_loads`
supplies. -/
def parseCore :
    Nat → Nat → ScanMode → Nat → List Char → Except String (Nat × List Char)
  | 0, _, _, k, _ => .error (posMsg "Expecting value" k)
  | steps + 1, depth, .value, k, cs =>
    match cs with
    | [] => .error (posMsg "Expecting value" k)
    | '"' :: rest => scanString k (k + 1) rest
    | '{' :: rest =>
      match depth with
      | 0 => .error (recursionErrMsg "object")
      | d + 1 => parseCore steps d .objStart (k + 1) rest
    | '[' :: rest =>
      match depth with
      | 0 => .error (recursionErrMsg "array")
      | d + 1 => parseCore steps d .arrStart (k + 1) rest
    | 'n' :: 'u' :: 'l' :: 'l' :: rest => .ok (k + 4, rest)
    | 't' :: 'r' :: 'u' :: 'e' :: rest => .ok (k + 4, rest)
    | 'f' :: 'a' :: 'l' :: 's' :: 'e' :: rest => .ok (k + 5, rest)
    | _ =>
      match matchNumber k cs with
      | some r => .ok r
      | none =>
        match cs with
        | 'N' :: 'a' :: 'N' :: rest => .ok (k + 3, rest)
        | 'I' :: 'n' :: 'f' :: 'i' :: 'n' :: 'i' :: 't' :: 'y' :: rest =>
          .ok (k + 8, rest)
        | '-' :: 'I' :: 'n' :: 'f' :: 'i' :: 'n' :: 'i' :: 't' :: 'y' :: rest =>
          .ok (k + 9, rest)
        | _ => .error (posMsg "Expecting value" k)
  | steps + 1, depth, .objStart, k, cs =>
    let w := skipWs k cs
    match w.2 with
    | '}' :: rest => .ok (w.1 + 1, rest)
    | '"' :: rest => parseCore steps depth .members (w.1 + 1) rest
    | _ =>
      .error (posMsg "Expecting property name enclosed in double quotes" w.1)
  | steps + 1, depth, .members, k, cs =>
    match scanString (k - 1) k cs with
    | .error e => .error e
    | .ok key =>
      let w := skipWs key.1 key.2
      match w.2 with
      | ':' :: rest =>
        let w2 := skipWs (w.1 + 1) rest
        match parseCore steps depth .value w2.1 w2.2 with
        | .error e => .error e
        | .ok v =>
          let w3 := skipWs v.1 v.2
          match w3.2 with
          | '}' :: rest2 => .ok (w3.1 + 1, rest2)
          | ',' :: rest2 =>
            let w4 := skipWs (w3.1 + 1) rest2
            match w4.2 with
            | '"' :: rest3 => parseCore steps depth .members (w4.1 + 1) rest3
            | _ =>
              .error (posMsg
                "Expecting property name enclosed in double quotes" w4.1)
          | _ => .error (posMsg "Expecting \x27,\x27 delimiter" w3.1)
      | _ => .error (posMsg "Expecting \x27:\x27 delimiter" w.1)
  | steps + 1, depth, .arrStart, k, cs =>
    let w := skipWs k cs
    match w.2 with
    | ']' :: rest => .ok (w.1 + 1, rest)
    | _ => parseCore steps depth .elems w.1 w.2
  | steps + 1, depth, .elems, k, cs =>
    match parseCore steps depth .value k cs with
    | .error e => .error e
    | .ok v =>
      let w := skipWs v.1 v.2
      match w.2 with
      | ']' :: rest => .ok (w.1 + 1, rest)
      | ',' :: rest =>
        let w2 := skipWs (w.1 + 1) rest
        parseCore steps depth .elems w2.1 w2.2
      | _ => .error (posMsg "Expecting \x27,\x27 delimiter" w.1)

/-- Entry point `_scan_once`: scan a single JSON value starting at position
`k`, with recursion budget `depth`. -/
def parseValue (steps depth : Nat) (k : Nat) (cs : List Char) :
    Except String (Nat × List Char) :=
  parseCore steps depth .value k cs

/-- The default `sys.getrecursionlimit()`, from which the scanner's
`Py_EnterRecursiveCall` budget is drawn.  The script never changes the
limit.  At run time a few units of the budget are already spent on the
interpreter frames below `json.loads` (in the observed CPython 3.11 runs the
scanner gave out between 995 and 998 nested containers), so the model's
cutoff sits at most a handful of levels above the real one; no claim depends
on the exact position of the cutoff, only on its existence and order of
magnitude. -/
def recursionLimit : Nat := 1000

/-- Model of `json.loads` on a single line, as a recognizer:
`JSONDecoder.decode` skips leading whitespace, scans one value, skips trailing
whitespace, and rejects `Extra data`.  The step allowance `3 * length + 8`
exceeds the call bound of `parseCore`, so only the input, its grammar and the
recursion budget determine the outcome. -/
def json_loads (s : String) : Except String Unit :=
  let cs := s.data
  let w := skipWs 0 cs
  match parseValue (3 * cs.length + 8) recursionLimit w.1 w.2 with
  | .error e => .error e
  | .ok v =>
    let w2 := skipWs v.1 v.2
    match w2.2 with
    | [] => .ok ()
    | _ => .error (posMsg "Extra data" w2.1)

instance : DecidableEq (Except String Unit) := fun a b => by
  cases a with
  | ok u =>
    cases b with
    | ok v => cases u; cases v; exact isTrue rfl
    | error f => exact isFalse fun h => Except.noConfusion h
  | error e =>
    cases b with
    | ok v => exact isFalse fun h => Except.noConfusion h
    | error f =>
      exact if h : e = f then isTrue (by rw [h])
        else isFalse fun hh => h (by injection hh)

/-- The diagnostic line `f"[ERROR] {path}:{i} invalid JSON: {e}"`. -/
def errMsg (p : String) (i : Nat) (e : String) : String :=
  "[ERROR] " ++ p ++ ":" ++ Nat.repr i ++ " invalid JSON: " ++ e

/-- The success line `f"[OK] {path} looks like valid JSONL"`. -/
def okMsg (p : String) : String :=
  "[OK] " ++ p ++ " looks like valid JSONL"

/-- The loop's mutable state: the `ok` flag and the lines printed so far. -/
structure LoopState where
  ok : Bool
  out : List String
deriving Repr, DecidableEq

/-- The body of the `for` loop for line `line` at 1-based number `i`:
strip, skip if blank, else `try: json.loads` and on exception print the
`[ERROR]` line and clear the flag. -/
def procLine (p : String) (st : LoopState) (i : Nat) (line : String) :
    LoopState :=
  let s := pyStrip line
  if s = "" then st
  else
    match json_loads s with
    | .ok _ => st
    | .error e => { ok := false, out := st.out ++ [errMsg p i e] }

/-- The `for i, line in enumerate(f, start=1)` loop, started at number `i`. -/
def runLines (p : String) (st : LoopState) (i : Nat) :
    List String → LoopState
  | [] => st
  | l :: ls => runLines p (procLine p st i l) (i + 1) ls

/-- The whole run on a successfully opened file whose decoded lines are
`lines`: the printed lines in order, and the process exit code
(`sys.exit(1)` when the flag is down, otherwise print `[OK]` and exit 0). -/
def validate_jsonl (p : String) (lines : List String) : List String × Nat :=
  let st := runLines p ⟨true, []⟩ 1 lines
  if st.ok then (st.out ++ [okMsg p], 0) else (st.out, 1)

/-- One step of iterating the open file: either a line decodes, or UTF-8
decoding raises `UnicodeDecodeError` at that point of the iteration. -/
inductive ReadLine where
  | line (s : String) : ReadLine
  | decodeError : ReadLine
deriving Repr, DecidableEq

/-- How a run can end: normal termination with printed lines and an exit
code, or an uncaught exception after having printed `out`. -/
inductive Outcome where
  | normal (out : List String) (code : Nat) : Outcome
  | crashed (out : List String) : Outcome
deriving Repr, DecidableEq

/-- Lines printed by an outcome (a crash still leaves what was printed). -/
def outputOf : Outcome → List String
  | .normal o _ => o
  | .crashed o => o

/-- Process exit status of an outcome; CPython exits with status 1 on an
uncaught exception. -/
def exitCodeOf : Outcome → Nat
  | .normal _ c => c
  | .crashed _ => 1

/-- The loop over the raw reads: a `decodeError` is raised by the iterator
itself, outside the `try`, so nothing catches it and the run crashes with
whatever was already printed. -/
def runReads (p : String) (st : LoopState) (i : Nat) :
    List ReadLine → Outcome
  | [] =>
    ite st.ok (.normal (st.out ++ [okMsg p]) 0) (.normal st.out 1)
  | .line l :: rs => runReads p (procLine p st i l) (i + 1) rs
  | .decodeError :: _ => .crashed st.out

/-- The whole program: `path.open` either yields the file's reads or raises
(`none`), and that exception is not caught anywhere, so the run crashes
before the loop prints anything. -/
def main_run (p : String) (file : Option (List ReadLine)) : Outcome :=
  match file with
  | none => .crashed []
  | some rs => runReads p ⟨true, []⟩ 1 rs

/-- The diagnostics printed for one processed line. -/
def diag1 (p : String) (i : Nat) (l : String) : List String :=
  if pyStrip l = "" then []
  else
    match json_loads (pyStrip l) with
    | .ok _ => []
    | .error e => [errMsg p i e]

/-- The diagnostics printed for a list of lines numbered from `i`. -/
def diagsFrom (p : String) (i : Nat) : List String → List String
  | [] => []
  | l :: ls => diag1 p i l ++ diagsFrom p (i + 1) ls

/-- The diagnostics contributed by the line at 0-based index `k`, the lines
being numbered from `i`. -/
def lineDiagsAt (p : String) (i : Nat) (ls : List String) (k : Nat) :
    List String :=
  match ls[k]? with
  | some l => diag1 p (i + k) l
  | none => []

/-- Whether a line leaves the flag up: blank, or its stripped text parses. -/
def lineValid (l : String) : Bool :=
  if pyStrip l = "" then true
  else
    match json_loads (pyStrip l) with
    | .ok _ => true
    | .error _ => false

/-- Whether every line of the file leaves the flag up. -/
def allValid (ls : List String) : Bool := ls.all lineValid

/-- The malformed lines' content, free of line numbers: for each non-blank
line that fails to parse, its stripped text and the decoder's message. -/
def errContent (ls : List String) : List (String × String) :=
  ls.filterMap fun l =>
    if pyStrip l = "" then none
    else
      match json_loads (pyStrip l) with
      | .ok _ => none
      | .error e => some (pyStrip l, e)

/-- Modelled from the spec: "attempt to parse the stripped line as a single
JSON value (object, array, string, number, boolean, or null — any valid
top-level JSON value is accepted, matching general JSON parsing semantics)".
Validity of a line as a standalone JSON value by grammar alone, i.e. with the
implementation's recursion limit lifted: the depth allowance `length + 1`
cannot run out, because each nesting level consumes one opening bracket.
Used only to state C4's universal "any valid top-level JSON value" against
the program. -/
def specJsonValue (s : String) : Bool :=
  let cs := s.data
  let w := skipWs 0 cs
  match parseValue (3 * cs.length + 8) (cs.length + 1) w.1 w.2 with
  | .error _ => false
  | .ok v =>
    let w2 := skipWs v.1 v.2
    match w2.2 with
    | [] => true
    | _ => false

/-- Balanced array nesting of depth `n`: the characters of `[`^n `]`^n. -/
def nest (n : Nat) : List Char :=
  List.replicate n '[' ++ List.replicate n ']'

/-- A structurally valid top-level JSON value nested deeper than any
plausible recursion budget: 1100 arrays (the budget is drawn from the
default limit of 1000, so the real scanner can never get this deep). -/
def deepLine : String := ⟨nest 1100⟩

/-! ## Basic lemmas about the loop -/

theorem procLine_ok (p : String) (st : LoopState) (i : Nat) (l : String) :
    (procLine p st i l).ok = (st.ok && lineValid l) := by
  by_cases h : pyStrip l = ""
  · simp [procLine, lineValid, h]
  · cases hj : json_loads (pyStrip l) <;> simp [procLine, lineValid, h, hj]

theorem procLine_out (p : String) (st : LoopState) (i : Nat) (l : String) :
    (procLine p st i l).out = st.out ++ diag1 p i l := by
  by_cases h : pyStrip l = ""
  · simp [procLine, diag1, h]
  · cases hj : json_loads (pyStrip l) <;> simp [procLine, diag1, h, hj]

theorem runLines_ok (p : String) (ls : List String) :
    ∀ st i, (runLines p st i ls).ok = (st.ok && allValid ls) := by
  induction ls with
  | nil => intro st i; simp [runLines, allValid]
  | cons l ls ih =>
    intro st i
    rw [runLines, ih, procLine_ok]
    simp [allValid, Bool.and_assoc]

theorem runLines_out (p : String) (ls : List String) :
    ∀ st i, (runLines p st i ls).out = st.out ++ diagsFrom p i ls := by
  induction ls with
  | nil => intro st i; simp [runLines, diagsFrom]
  | cons l ls ih =>
    intro st i
    rw [runLines, ih, procLine_out, diagsFrom, List.append_assoc]

theorem runLines_append (p : String) (a : List String) (b : List String) :
    ∀ st i, runLines p st i (a ++ b) =
      runLines p (runLines p st i a) (i + a.length) b := by
  induction a with
  | nil => intro st i; simp [runLines]
  | cons l a ih =>
    intro st i
    rw [List.cons_append, runLines, runLines, ih]
    simp [Nat.add_comm, Nat.add_assoc, Nat.add_left_comm]

theorem diagsFrom_append (p : String) (a b : List String) :
    ∀ i, diagsFrom p i (a ++ b) =
      diagsFrom p i a ++ diagsFrom p (i + a.length) b := by
  induction a with
  | nil => intro i; simp [diagsFrom]
  | cons l a ih =>
    intro i
    rw [List.cons_append, diagsFrom, diagsFrom, ih, List.append_assoc]
    have : i + 1 + a.length = i + (l :: a).length := by
      simp [List.length_cons]; omega
    rw [this]

theorem diag1_of_lineValid (p : String) (i : Nat) (l : String)
    (h : lineValid l = true) : diag1 p i l = [] := by
  by_cases hb : pyStrip l = ""
  · simp [diag1, hb]
  · cases hj : json_loads (pyStrip l) with
    | ok a => simp [diag1, hb, hj]
    | error e => simp [lineValid, hb, hj] at h

theorem diagsFrom_of_allValid (p : String) (ls : List String)
    (h : allValid ls = true) : ∀ i, diagsFrom p i ls = [] := by
  induction ls with
  | nil => intro i; rfl
  | cons l ls ih =>
    intro i
    rw [allValid, List.all_cons, Bool.and_eq_true] at h
    rw [diagsFrom, diag1_of_lineValid p i l h.1, ih h.2]
    rfl

theorem string_data_append (a b : String) : (a ++ b).data = a.data ++ b.data :=
  rfl

theorem errMsg_ne_okMsg (p q : String) (i : Nat) (e : String) :
    errMsg p i e ≠ okMsg q := by
  intro h
  have h2 := congrArg (fun s => s.data[1]?) h
  simp only [errMsg, okMsg, string_data_append] at h2
  simp at h2

theorem mem_diag1 (p : String) (i : Nat) (l : String) (x : String)
    (hx : x ∈ diag1 p i l) : ∃ e, x = errMsg p i e := by
  by_cases hb : pyStrip l = ""
  · simp [diag1, hb] at hx
  · cases hj : json_loads (pyStrip l) with
    | ok a => simp [diag1, hb, hj] at hx
    | error e =>
      simp [diag1, hb, hj] at hx
      exact ⟨e, hx⟩

theorem okMsg_not_mem_diagsFrom (p q : String) (ls : List String) :
    ∀ i, okMsg q ∉ diagsFrom p i ls := by
  induction ls with
  | nil => intro i h; exact absurd h (List.not_mem_nil _)
  | cons l ls ih =>
    intro i h
    rw [diagsFrom, List.mem_append] at h
    rcases h with h | h
    · obtain ⟨e, he⟩ := mem_diag1 p i l _ h
      exact errMsg_ne_okMsg p q i e he.symm
    · exact ih (i + 1) h

theorem validate_jsonl_exit (p : String) (ls : List String) :
    (validate_jsonl p ls).2 = if allValid ls then 0 else 1 := by
  simp only [validate_jsonl]
  rw [runLines_ok]
  simp only [Bool.true_and]
  split <;> simp_all

theorem validate_jsonl_out (p : String) (ls : List String) :
    (validate_jsonl p ls).1 =
      if allValid ls then diagsFrom p 1 ls ++ [okMsg p]
      else diagsFrom p 1 ls := by
  simp only [validate_jsonl]
  rw [runLines_ok]
  simp only [Bool.true_and]
  split <;> simp_all [runLines_out]

theorem diagsFrom_eq_flatten (p : String) (ls : List String) :
    ∀ i, diagsFrom p i ls =
      ((List.range ls.length).map (lineDiagsAt p i ls)).flatten := by
  induction ls with
  | nil => intro i; rfl
  | cons l ls ih =>
    intro i
    rw [List.length_cons, List.range_succ_eq_map]
    simp only [List.map_cons, List.flatten_cons, List.map_map]
    have h0 : lineDiagsAt p i (l :: ls) 0 = diag1 p i l := by
      simp [lineDiagsAt]
    have hs : (lineDiagsAt p i (l :: ls)) ∘ Nat.succ =
        lineDiagsAt p (i + 1) ls := by
      funext k
      simp only [Function.comp_apply, lineDiagsAt, List.getElem?_cons_succ]
      have : i + Nat.succ k = i + 1 + k := by omega
      rw [this]
    rw [h0, hs, ← ih (i + 1)]
    rfl

theorem runReads_map_line (p : String) (ls : List String) :
    ∀ st i, runReads p st i (ls.map ReadLine.line) =
      ite (runLines p st i ls).ok
        (Outcome.normal ((runLines p st i ls).out ++ [okMsg p]) 0)
        (Outcome.normal (runLines p st i ls).out 1) := by
  induction ls with
  | nil => intro st i; rfl
  | cons l ls ih =>
    intro st i
    rw [List.map_cons, runReads, runLines, ih]

theorem runReads_decodeError (p : String) (pre : List String)
    (rest : List ReadLine) :
    ∀ st i, runReads p st i
        (pre.map ReadLine.line ++ ReadLine.decodeError :: rest) =
      .crashed (runLines p st i pre).out := by
  induction pre with
  | nil => intro st i; rfl
  | cons l pre ih =>
    intro st i
    rw [List.map_cons, List.cons_append, runReads, runLines, ih]

theorem lineValid_iff (l : String) :
    lineValid l = true ↔
      (pyStrip l ≠ "" → json_loads (pyStrip l) = .ok ()) := by
  by_cases hb : pyStrip l = ""
  · simp [lineValid, hb]
  · cases hj : json_loads (pyStrip l) with
    | ok a => cases a; simp [lineValid, hb, hj]
    | error e => simp [lineValid, hb, hj]

theorem allValid_iff (ls : List String) :
    allValid ls = true ↔
      ∀ l ∈ ls, pyStrip l ≠ "" → json_loads (pyStrip l) = .ok () := by
  rw [allValid, List.all_eq_true]
  constructor
  · intro h l hl
    exact (lineValid_iff l).mp (h l hl)
  · intro h l hl
    exact (lineValid_iff l).mpr (h l hl)

/-! ## The scanner on deep balanced nesting

Symbolic evaluation lemmas for `parseCore` on `[`-nesting, used to settle C4:
the grammar accepts balanced nesting of any depth, while the budgeted scanner
gives out beyond `recursionLimit` levels. -/

theorem parseCore_value_lbracket (s d k : Nat) (cs : List Char) :
    parseCore (s + 1) (d + 1) ScanMode.value k ('[' :: cs) =
      parseCore s d ScanMode.arrStart (k + 1) cs := rfl

theorem parseCore_value_lbracket_exhausted (s k : Nat) (cs : List Char) :
    parseCore (s + 1) 0 ScanMode.value k ('[' :: cs) =
      .error (recursionErrMsg "array") := rfl

theorem parseCore_arrStart_lbracket (s d k : Nat) (cs : List Char) :
    parseCore (s + 1) d ScanMode.arrStart k ('[' :: cs) =
      parseCore s d ScanMode.elems k ('[' :: cs) := rfl

theorem parseCore_elems_body (s d k : Nat) (cs : List Char) :
    parseCore (s + 1) d ScanMode.elems k cs =
      match parseCore s d ScanMode.value k cs with
      | .error e => .error e
      | .ok v =>
        let w := skipWs v.1 v.2
        match w.2 with
        | ']' :: rest => .ok (w.1 + 1, rest)
        | ',' :: rest =>
          let w2 := skipWs (w.1 + 1) rest
          parseCore s d ScanMode.elems w2.1 w2.2
        | _ => .error (posMsg "Expecting \x27,\x27 delimiter" w.1) := rfl

theorem parseCore_elems_close (s d k j : Nat) (cs rest : List Char)
    (h : parseCore s d ScanMode.value k cs = .ok (j, ']' :: rest)) :
    parseCore (s + 1) d ScanMode.elems k cs = .ok (j + 1, rest) := by
  rw [parseCore_elems_body, h]
  rfl

theorem parseCore_elems_error (s d k : Nat) (cs : List Char) (e : String)
    (h : parseCore s d ScanMode.value k cs = .error e) :
    parseCore (s + 1) d ScanMode.elems k cs = .error e := by
  rw [parseCore_elems_body, h]

theorem nest_succ_append (m : Nat) (rest : List Char) :
    nest (m + 1) ++ rest = '[' :: (nest m ++ (']' :: rest)) := by
  calc nest (m + 1) ++ rest
      = ('[' :: List.replicate m '[') ++
          (List.replicate m ']' ++ [']']) ++ rest := by
        rw [nest, List.replicate_succ, List.replicate_succ']
    _ = '[' :: (nest m ++ (']' :: rest)) := by
        simp [nest, List.append_assoc]

/-- Grammar side: with enough steps and depth, the scanner accepts `n + 1`
nested arrays wherever they occur. -/
theorem parseCore_nest_ok (n : Nat) :
    ∀ steps depth k rest, 3 * (n + 1) + 1 ≤ steps → n + 1 ≤ depth →
      parseCore steps depth ScanMode.value k (nest (n + 1) ++ rest) =
        .ok (k + 2 * (n + 1), rest) := by
  induction n with
  | zero =>
    intro steps depth k rest hs hd
    obtain ⟨s, rfl⟩ : ∃ s, steps = s + 1 + 1 := ⟨steps - 2, by omega⟩
    obtain ⟨d, rfl⟩ : ∃ d, depth = d + 1 := ⟨depth - 1, by omega⟩
    rw [nest_succ_append, parseCore_value_lbracket]
    show parseCore (s + 1) d ScanMode.arrStart (k + 1) (']' :: rest) = _
    rfl
  | succ m ih =>
    intro steps depth k rest hs hd
    obtain ⟨s, rfl⟩ : ∃ s, steps = s + 1 + 1 + 1 := ⟨steps - 3, by omega⟩
    obtain ⟨d, rfl⟩ : ∃ d, depth = d + 1 := ⟨depth - 1, by omega⟩
    rw [nest_succ_append, parseCore_value_lbracket, nest_succ_append,
      parseCore_arrStart_lbracket, ← nest_succ_append,
      parseCore_elems_close s d (k + 1) ((k + 1) + 2 * (m + 1)) _ rest
        (ih s d (k + 1) (']' :: rest) (by omega) (by omega))]
    have : (k + 1) + 2 * (m + 1) + 1 = k + 2 * (m + 1 + 1) := by omega
    rw [this]

/-- Budget side: on more opening brackets than the depth budget, the scanner
fails with the `RecursionError` message, whatever follows. -/
theorem parseCore_depth_exhausted (d : Nat) :
    ∀ steps m k rest, d < m → 3 * d + 1 ≤ steps →
      parseCore steps d ScanMode.value k (List.replicate m '[' ++ rest) =
        .error (recursionErrMsg "array") := by
  induction d with
  | zero =>
    intro steps m k rest hm hs
    obtain ⟨s, rfl⟩ : ∃ s, steps = s + 1 := ⟨steps - 1, by omega⟩
    obtain ⟨j, rfl⟩ : ∃ j, m = j + 1 := ⟨m - 1, by omega⟩
    rw [List.replicate_succ, List.cons_append]
    exact parseCore_value_lbracket_exhausted s k _
  | succ d ih =>
    intro steps m k rest hm hs
    obtain ⟨s, rfl⟩ : ∃ s, steps = s + 1 + 1 + 1 := ⟨steps - 3, by omega⟩
    obtain ⟨j, rfl⟩ : ∃ j, m = j + 1 + 1 := ⟨m - 2, by omega⟩
    rw [List.replicate_succ, List.cons_append, parseCore_value_lbracket,
      List.replicate_succ, List.cons_append, parseCore_arrStart_lbracket,
      ← List.cons_append, ← List.replicate_succ]
    exact parseCore_elems_error s d (k + 1) _ _
      (ih s (j + 1) (k + 1) rest (by omega) (by omega))

theorem nest_cons : nest 1100 = '[' ::
    (List.replicate 1099 '[' ++ List.replicate 1100 ']') := rfl

theorem nest_length (n : Nat) : (nest n).length = 2 * n := by
  rw [nest, List.length_append, List.length_replicate, List.length_replicate]
  omega

theorem deepLine_ne_empty : deepLine ≠ "" := by
  intro h
  have h2 : nest 1100 = [] := congrArg String.data h
  rw [nest_cons] at h2
  exact List.noConfusion h2

theorem pyStrip_deepLine : pyStrip deepLine = deepLine := by
  have h1 : (nest 1100).dropWhile pyWsChar = nest 1100 := by
    rw [nest_cons, List.dropWhile_cons, if_neg (by decide), ← nest_cons]
  have h2 : (nest 1100).reverse =
      List.replicate 1100 ']' ++ List.replicate 1100 '[' := by
    rw [nest, List.reverse_append, List.reverse_replicate,
      List.reverse_replicate]
  have hc : List.replicate 1100 ']' ++ List.replicate 1100 '[' =
      ']' :: (List.replicate 1099 ']' ++ List.replicate 1100 '[') := rfl
  have h3 : (List.replicate 1100 ']' ++
      List.replicate 1100 '[').dropWhile pyWsChar =
      List.replicate 1100 ']' ++ List.replicate 1100 '[' := by
    rw [hc, List.dropWhile_cons, if_neg (by decide), ← hc]
  have key : ((deepLine.data.dropWhile pyWsChar).reverse.dropWhile
      pyWsChar).reverse = deepLine.data := by
    rw [show deepLine.data = nest 1100 from rfl, h1, h2, h3, ← h2,
      List.reverse_reverse]
  exact congrArg String.mk key

theorem skipWs_deepLine : skipWs 0 (nest 1100) = (0, nest 1100) := by
  rw [nest_cons]
  rfl

theorem json_loads_deepLine :
    json_loads deepLine = .error (recursionErrMsg "array") := by
  have hb : 3 * 1000 + 1 ≤ 3 * (nest 1100).length + 8 := by
    rw [nest_length]
    omega
  have hparse : parseCore (3 * (nest 1100).length + 8) 1000 ScanMode.value 0
      (List.replicate 1100 '[' ++ List.replicate 1100 ']') =
      .error (recursionErrMsg "array") :=
    parseCore_depth_exhausted 1000 (3 * (nest 1100).length + 8) 1100 0
      (List.replicate 1100 ']') (by omega) hb
  simp only [json_loads, parseValue,
    show deepLine.data = nest 1100 from rfl, skipWs_deepLine,
    show recursionLimit = 1000 from rfl]
  rw [show (nest 1100 : List Char) =
    List.replicate 1100 '[' ++ List.replicate 1100 ']' from rfl] at hparse ⊢
  rw [hparse]

theorem specJsonValue_deepLine : specJsonValue deepLine = true := by
  have hA := parseCore_nest_ok 1099 (3 * (nest 1100).length + 8)
    ((nest 1100).length + 1) 0 [] (by rw [nest_length]; omega)
    (by rw [nest_length]; omega)
  rw [List.append_nil, show (1099 : Nat) + 1 = 1100 from rfl] at hA
  simp only [specJsonValue, parseValue,
    show deepLine.data = nest 1100 from rfl, skipWs_deepLine]
  rw [hA]
  rfl

theorem validate_jsonl_deepLine :
    validate_jsonl "f" [deepLine] =
      ([errMsg "f" 1 (recursionErrMsg "array")], 1) := by
  have hlv : lineValid deepLine = false := by
    unfold lineValid
    rw [pyStrip_deepLine, if_neg deepLine_ne_empty, json_loads_deepLine]
  have hall : allValid [deepLine] = false := by
    unfold allValid
    rw [List.all_cons, hlv]
    rfl
  have hdiag1 : diag1 "f" 1 deepLine =
      [errMsg "f" 1 (recursionErrMsg "array")] := by
    unfold diag1
    rw [pyStrip_deepLine, if_neg deepLine_ne_empty, json_loads_deepLine]
  have h1 := validate_jsonl_out "f" [deepLine]
  have h2 := validate_jsonl_exit "f" [deepLine]
  rw [hall, if_neg (show ¬(false = true) by decide),
    diagsFrom, diagsFrom, hdiag1, List.append_nil] at h1
  rw [hall, if_neg (show ¬(false = true) by decide)] at h2
  exact Prod.ext h1 h2

/-! ## The claims -/

/-- C1: for a readable input file, the run exits with code 0 and prints
exactly one `[OK] <path> looks like valid JSONL` line if and only if every
non-blank line (after stripping) parses as JSON; if some non-blank line fails
to parse, the run exits with code 1 and prints no success message. -/
theorem C1_overall_verdict (p : String) (ls : List String) :
    ((validate_jsonl p ls).2 = 0 ∧
        (validate_jsonl p ls).1.count (okMsg p) = 1 ↔
      ∀ l ∈ ls, pyStrip l ≠ "" → json_loads (pyStrip l) = .ok ()) ∧
    ((¬ ∀ l ∈ ls, pyStrip l ≠ "" → json_loads (pyStrip l) = .ok ()) →
      (validate_jsonl p ls).2 = 1 ∧ okMsg p ∉ (validate_jsonl p ls).1) := by
  by_cases hv : allValid ls = true
  · have hg := (allValid_iff ls).mp hv
    refine ⟨⟨fun _ => hg, fun _ => ?_⟩, fun hng => absurd hg hng⟩
    rw [validate_jsonl_exit, validate_jsonl_out, hv]
    refine ⟨rfl, ?_⟩
    simp only [if_true]
    rw [List.count_append,
      List.count_eq_zero.mpr (okMsg_not_mem_diagsFrom p p ls 1)]
    simp
  · have hv' : allValid ls = false := by
      cases h : allValid ls with
      | true => exact absurd h hv
      | false => rfl
    have hng : ¬ ∀ l ∈ ls, pyStrip l ≠ "" → json_loads (pyStrip l) = .ok () :=
      fun hg => hv ((allValid_iff ls).mpr hg)
    have hrun : (validate_jsonl p ls).2 = 1 ∧
        okMsg p ∉ (validate_jsonl p ls).1 := by
      rw [validate_jsonl_exit, validate_jsonl_out, hv']
      exact ⟨rfl, okMsg_not_mem_diagsFrom p p ls 1⟩
    refine ⟨⟨fun h => absurd h.1 (by rw [hrun.1]; simp), fun hg => absurd hg hng⟩,
      fun _ => hrun⟩

/-- Witness for C1 at a concrete malformed file. -/
theorem C1_overall_verdict_witness :
    (validate_jsonl "f" ["\x7b"]).2 = 1 ∧
      okMsg "f" ∉ (validate_jsonl "f" ["\x7b"]).1 :=
  (C1_overall_verdict "f" ["\x7b"]).2 (by decide)

/-- C2: a non-blank line whose stripped text fails to parse makes the flag
false, contributes exactly the one diagnostic
`[ERROR] <path>:<line> invalid JSON: <decoder message>` for its (1-based)
position, and the loop goes on: the printed lines are the concatenation, over
all line indices in order, of each line's diagnostics. -/
theorem C2_malformed_line_reported (p : String) (ls : List String) (j : Nat)
    (l e : String) (hl : ls[j]? = some l) (hb : pyStrip l ≠ "")
    (he : json_loads (pyStrip l) = .error e) :
    (runLines p ⟨true, []⟩ 1 ls).ok = false ∧
    lineDiagsAt p 1 ls j = [errMsg p (j + 1) e] ∧
    (runLines p ⟨true, []⟩ 1 ls).out =
      ((List.range ls.length).map (lineDiagsAt p 1 ls)).flatten := by
  refine ⟨?_, ?_, ?_⟩
  · rw [runLines_ok]
    simp only [Bool.true_and]
    cases hall : allValid ls with
    | false => rfl
    | true =>
      exfalso
      have := (allValid_iff ls).mp hall l (List.getElem?_mem hl) hb
      rw [he] at this
      exact Except.noConfusion this
  · simp [lineDiagsAt, hl, diag1, hb, he, Nat.add_comm]
  · rw [runLines_out, diagsFrom_eq_flatten]
    simp

/-- Witness for C2: the malformed second line of the design's scenario. -/
theorem C2_malformed_line_reported_witness :
    (runLines "f" ⟨true, []⟩ 1 ["\x7b\"a\":1\x7d", "\x7bbad json\x7d"]).ok
        = false ∧
    lineDiagsAt "f" 1 ["\x7b\"a\":1\x7d", "\x7bbad json\x7d"] 1 =
      [errMsg "f" 2
        "Expecting property name enclosed in double quotes: line 1 column 2 (char 1)"] ∧
    (runLines "f" ⟨true, []⟩ 1 ["\x7b\"a\":1\x7d", "\x7bbad json\x7d"]).out =
      ((List.range 2).map
        (lineDiagsAt "f" 1 ["\x7b\"a\":1\x7d", "\x7bbad json\x7d"])).flatten :=
  C2_malformed_line_reported "f" ["\x7b\"a\":1\x7d", "\x7bbad json\x7d"] 1
    "\x7bbad json\x7d"
    "Expecting property name enclosed in double quotes: line 1 column 2 (char 1)"
    (by rfl) (by decide) (by rfl)

/-- C3: a line that strips to empty is skipped: the loop body returns the
state unchanged (no parse, no diagnostic, no effect on the verdict), and a
file of only blank lines — or an empty file — prints exactly the `[OK]` line
and exits 0. -/
theorem C3_blank_lines_skipped (p l : String) (st : LoopState) (i : Nat)
    (ls : List String) (hb : pyStrip l = "")
    (hall : ∀ x ∈ ls, pyStrip x = "") :
    procLine p st i l = st ∧ validate_jsonl p ls = ([okMsg p], 0) := by
  refine ⟨by simp [procLine, hb], ?_⟩
  have hv : allValid ls = true := by
    rw [allValid, List.all_eq_true]
    intro x hx
    simp [lineValid, hall x hx]
  have h1 := validate_jsonl_out p ls
  have h2 := validate_jsonl_exit p ls
  rw [hv] at h1 h2
  simp only [if_true] at h1 h2
  rw [diagsFrom_of_allValid p ls hv 1] at h1
  exact Prod.ext (by rw [h1]; rfl) h2

/-- Witness for C3: a blank line, and a file of two blank lines. -/
theorem C3_blank_lines_skipped_witness :
    procLine "f" ⟨true, []⟩ 5 " \t " = ⟨true, []⟩ ∧
      validate_jsonl "f" ["", "  "] = ([okMsg "f"], 0) :=
  C3_blank_lines_skipped "f" " \t " ⟨true, []⟩ 5 ["", "  "] (by decide)
    (by decide)

/-- C4, as frozen, is false of the program: not every structurally valid
top-level JSON value is accepted.  `specJsonValue` renders "valid top-level
JSON value" by grammar alone; at 1100 nested arrays the line is valid JSON,
yet the scanner's recursion budget runs out, `json.loads` raises
`RecursionError`, the script's `except Exception` turns it into an `[ERROR]`
line, and the run exits 1 printing no `[OK]` line. -/
theorem C4_any_toplevel_value_counterexample :
    specJsonValue (pyStrip deepLine) = true ∧
    (validate_jsonl "f" [deepLine]).2 = 1 ∧
    okMsg "f" ∉ (validate_jsonl "f" [deepLine]).1 := by
  refine ⟨?_, ?_, ?_⟩
  · rw [pyStrip_deepLine]
    exact specJsonValue_deepLine
  · rw [validate_jsonl_deepLine]
  · rw [validate_jsonl_deepLine]
    simp only [List.mem_singleton]
    exact fun h => errMsg_ne_okMsg "f" "f" 1 (recursionErrMsg "array") h.symm

/-- C4 (amended): acceptance is uniform across the kinds of top-level value —
a non-blank line is accepted whenever `json.loads` scans its stripped text,
be the value an object, array, string, number, boolean or null, and a file of
such lines exits 0; in particular `null` / `"just a string"` / `42` prints
the `[OK]` line and exits 0.  (Structurally valid JSON is still rejected past
the scanner's recursion limit.) -/
theorem C4_parsed_values_accepted (p : String) (ls : List String)
    (h : ∀ l ∈ ls, pyStrip l ≠ "" → json_loads (pyStrip l) = .ok ()) :
    (validate_jsonl p ls).2 = 0 ∧
    validate_jsonl p ["null", "\"just a string\"", "42"] = ([okMsg p], 0) := by
  refine ⟨?_, ?_⟩
  · rw [validate_jsonl_exit, (allValid_iff ls).mpr h]
    rfl
  · rfl

/-- Witness for the amended C4 at a concrete all-valid file. -/
theorem C4_parsed_values_accepted_witness :
    (validate_jsonl "f" ["true", "[1, 2]"]).2 = 0 ∧
      validate_jsonl "f" ["null", "\"just a string\"", "42"] =
        ([okMsg "f"], 0) :=
  C4_parsed_values_accepted "f" ["true", "[1, 2]"] (by decide)

/-- C5: when `path.open` raises (file missing, unreadable, a directory), no
handler catches it: the run crashes before the loop, prints nothing (neither
`[ERROR]` nor `[OK]` lines), and the process status is non-zero. -/
theorem C5_unreadable_file_crashes (p : String) :
    main_run p none = Outcome.crashed [] ∧
    outputOf (main_run p none) = [] ∧
    exitCodeOf (main_run p none) ≠ 0 :=
  ⟨rfl, rfl, by simp [main_run, exitCodeOf]⟩

/-- C6: the flag starts true, a false flag is never reset by any further
iteration, and after any prefix of the lines the flag is true exactly when no
non-blank line of that prefix failed to parse. -/
theorem C6_flag_monotonic (p : String) (ls pre : List String) (st : LoopState)
    (i n : Nat) :
    (⟨true, []⟩ : LoopState).ok = true ∧
    (st.ok = false → (runLines p st i ls).ok = false) ∧
    ((runLines p ⟨true, []⟩ 1 (pre.take n)).ok = true ↔
      ∀ l ∈ pre.take n, pyStrip l ≠ "" → json_loads (pyStrip l) = .ok ()) := by
  refine ⟨rfl, fun h => ?_, ?_⟩
  · rw [runLines_ok, h]
    rfl
  · rw [runLines_ok]
    simp only [Bool.true_and]
    exact allValid_iff _

/-- Witness for C6: a false flag stays false across a further line. -/
theorem C6_flag_monotonic_witness :
    (runLines "f" ⟨false, []⟩ 3 ["1"]).ok = false :=
  (C6_flag_monotonic "f" ["1"] [] ⟨false, []⟩ 3 0).2.1 rfl

/-- C7: the loop consumes the lines strictly in file order (processing
`a ++ b` is processing `a`, then `b` from the shifted line number), and the
printed diagnostics are the concatenation, over the 0-based indices `k` in
increasing order, of line `k`'s diagnostics, which carry the 1-based number
`k + 1`. -/
theorem C7_diagnostics_in_order (p : String) (st : LoopState) (i : Nat)
    (a b ls : List String) :
    runLines p st i (a ++ b) =
      runLines p (runLines p st i a) (i + a.length) b ∧
    (runLines p ⟨true, []⟩ 1 ls).out =
      ((List.range ls.length).map (lineDiagsAt p 1 ls)).flatten := by
  refine ⟨runLines_append p a b st i, ?_⟩
  rw [runLines_out, diagsFrom_eq_flatten]
  simp

/-- C8: inserting a blank line anywhere changes neither the exit code nor the
malformed lines' reported content; it only shifts the line numbers of the
diagnostics of the following lines by one (`a.length + 2` in place of
`a.length + 1`). -/
theorem C8_blank_line_neutral (p bl : String) (a b : List String)
    (hbl : pyStrip bl = "") :
    (validate_jsonl p (a ++ bl :: b)).2 = (validate_jsonl p (a ++ b)).2 ∧
    errContent (a ++ bl :: b) = errContent (a ++ b) ∧
    (runLines p ⟨true, []⟩ 1 (a ++ bl :: b)).out =
      diagsFrom p 1 a ++ diagsFrom p (a.length + 2) b ∧
    (runLines p ⟨true, []⟩ 1 (a ++ b)).out =
      diagsFrom p 1 a ++ diagsFrom p (a.length + 1) b := by
  have hlv : lineValid bl = true := by simp [lineValid, hbl]
  have hd : ∀ i, diag1 p i bl = [] := fun i => by simp [diag1, hbl]
  refine ⟨?_, ?_, ?_, ?_⟩
  · rw [validate_jsonl_exit, validate_jsonl_exit]
    have : allValid (a ++ bl :: b) = allValid (a ++ b) := by
      simp [allValid, List.all_append, List.all_cons, hlv]
    rw [this]
  · simp [errContent, List.filterMap_append, List.filterMap_cons, hbl]
  · rw [runLines_out, diagsFrom_append, diagsFrom, hd]
    have : 1 + a.length + 1 = a.length + 2 := by omega
    rw [this]
    simp
  · rw [runLines_out, diagsFrom_append]
    have : 1 + a.length = a.length + 1 := by omega
    rw [this]
    simp

/-- Witness for C8: a blank line between a valid and a malformed line. -/
theorem C8_blank_line_neutral_witness :
    (validate_jsonl "f" (["1"] ++ " " :: ["\x7b"])).2 =
      (validate_jsonl "f" (["1"] ++ ["\x7b"])).2 ∧
    errContent (["1"] ++ " " :: ["\x7b"]) = errContent (["1"] ++ ["\x7b"]) ∧
    (runLines "f" ⟨true, []⟩ 1 (["1"] ++ " " :: ["\x7b"])).out =
      diagsFrom "f" 1 ["1"] ++ diagsFrom "f" 3 ["\x7b"] ∧
    (runLines "f" ⟨true, []⟩ 1 (["1"] ++ ["\x7b"])).out =
      diagsFrom "f" 1 ["1"] ++ diagsFrom "f" 2 ["\x7b"] :=
  C8_blank_line_neutral "f" " " ["1"] ["\x7b"] (by decide)

/-- C9: the run is a function of the path and the file's lines alone: two
runs over the same unmodified file print the same lines and exit alike. -/
theorem C9_deterministic (p : String) (file1 file2 : List String)
    (h : file1 = file2) :
    (validate_jsonl p file1).1 = (validate_jsonl p file2).1 ∧
    (validate_jsonl p file1).2 = (validate_jsonl p file2).2 := by
  rw [h]
  exact ⟨rfl, rfl⟩

/-- Witness for C9 at a concrete file read twice. -/
theorem C9_deterministic_witness :
    (validate_jsonl "f" ["1"]).1 = (validate_jsonl "f" ["1"]).1 ∧
    (validate_jsonl "f" ["1"]).2 = (validate_jsonl "f" ["1"]).2 :=
  C9_deterministic "f" ["1"] ["1"] rfl

/-- C10: a UTF-8 decoding failure during line iteration is raised by the
iterator, outside the `try` that guards only `json.loads`: the run crashes
keeping the `[ERROR]` diagnostics already printed for the earlier lines,
never prints the `[OK]` line, and the status is non-zero. -/
theorem C10_decode_error_mid_iteration (p : String) (pre : List String)
    (rest : List ReadLine) :
    runReads p ⟨true, []⟩ 1
        (pre.map ReadLine.line ++ ReadLine.decodeError :: rest) =
      Outcome.crashed (diagsFrom p 1 pre) ∧
    okMsg p ∉ diagsFrom p 1 pre ∧
    exitCodeOf (runReads p ⟨true, []⟩ 1
      (pre.map ReadLine.line ++ ReadLine.decodeError :: rest)) ≠ 0 := by
  have h := runReads_decodeError p pre rest ⟨true, []⟩ 1
  refine ⟨?_, okMsg_not_mem_diagsFrom p p pre 1, ?_⟩
  · rw [h, runLines_out]
    simp
  · rw [h, runLines_out]
    simp [exitCodeOf]

